import Mathlib

/-!
Shallow embedding of the `validity` crate (src/lib.rs): the `Valid<T>`
wrapper, the `Validate` trait with its context-parameterised predicate
`is_valid`, the construction entry points `validate_with` / `validate`,
the test-mock escape hatch, and the phone-number examples from the
crate's documentation.
-/

/-- The `Valid<T>` wrapper (lib.rs line 134): a single-field struct owning
exactly one payload, `pub struct Valid<T>(T)`.  The tuple field `self.0`
is named `inner` here. -/
structure Valid (T : Type) where
  inner : T

/-- `Valid::into_inner` (lib.rs 138-140): consume the wrapper and return
the inner value, `self.0`. -/
def Valid.into_inner {T : Type} (v : Valid T) : T :=
  v.inner

/-- The `Deref` impl for `Valid<T>` (lib.rs 154-159): `deref` returns
`&self.0`; modelled by value since the embedding has no references. -/
def Valid.deref {T : Type} (v : Valid T) : T :=
  v.inner

/-- `Valid::danger_new_unvalidated` (lib.rs 148-151): build `Self(t)`
directly, without running any predicate.  Gated in Rust behind the
`test-mock` cargo feature. -/
def Valid.danger_new_unvalidated {T : Type} (t : T) : Valid T :=
  Valid.mk t

/-- Model of the `#[cfg(feature = "test-mock")]` gate on
`danger_new_unvalidated` (lib.rs 148): when the feature flag is enabled the
constructor is part of the API (`some`), when it is disabled the item is not
compiled at all (`none`). -/
def Valid.danger_new_unvalidated_gated {T : Type} (test_mock : Bool) (t : T) :
    Option (Valid T) :=
  if test_mock then some (Valid.danger_new_unvalidated t) else none

/-- The derived `PartialEq`/`Eq` for `Valid<T>` (lib.rs 133): field-wise
equality, delegating to the payload. -/
instance {T : Type} [BEq T] : BEq (Valid T) :=
  ⟨fun a b => a.inner == b.inner⟩

/-- The derived `PartialOrd`/`Ord` for `Valid<T>` (lib.rs 133): field-wise
comparison, delegating to the payload. -/
instance {T : Type} [Ord T] : Ord (Valid T) :=
  ⟨fun a b => compare a.inner b.inner⟩

/-- The derived `Hash` for `Valid<T>` (lib.rs 133): hashes the single
field with the payload's own hash. -/
instance {T : Type} [Hashable T] : Hashable (Valid T) :=
  ⟨fun a => hash a.inner⟩

/-- The derived `Clone`/`Copy` for `Valid<T>` (lib.rs 133): clones the
single field with the payload's own clone, passed here explicitly. -/
def Valid.clone {T : Type} (clone_t : T → T) (a : Valid T) : Valid T :=
  Valid.mk (clone_t a.inner)

/-- The derived `Debug` for `Valid<T>` (lib.rs 133): formats as
`Valid(..)` around the field's own debug formatting, passed here
explicitly. -/
def Valid.fmt_debug {T : Type} (fmt_t : T → String) (a : Valid T) : String :=
  "Valid(" ++ fmt_t a.inner ++ ")"

/-- The `Validate` trait (lib.rs 207-242), embedded as a record of its one
required method.  The associated types `Context<'a>` and `Error` become
the type parameters `Ctx` and `Err` (lifetimes erased); `is_valid` takes
the payload by reference and a context and returns `Result<(), Error>`. -/
structure Validate (T : Type) (Ctx : Type) (Err : Type) where
  is_valid : T → Ctx → Except Err Unit

/-- `Validate::validate_with` (lib.rs 221-229): run `is_valid` with the
given context; on `Ok(())` move `self` into a `Valid` wrapper, on
`Err(e)` return `e` unchanged. -/
def Validate.validate_with {T Ctx Err : Type} (inst : Validate T Ctx Err)
    (self : T) (ctx : Ctx) : Except Err (Valid T) :=
  match inst.is_valid self ctx with
  | Except.ok () => Except.ok (Valid.mk self)
  | Except.error e => Except.error e

/-- `Validate::validate` (lib.rs 235-241): available only when
`Context<'a> = ()` for every lifetime; supplies the unit context to
`validate_with`. -/
def Validate.validate {T Err : Type} (inst : Validate T Unit Err)
    (self : T) : Except Err (Valid T) :=
  inst.validate_with self ()

/-- `PhoneNumber(String)` from the crate's context-free doc example
(lib.rs 8). -/
structure PhoneNumber where
  str : String

/-- `InvalidPhoneNumber` from the context-free doc example
(lib.rs 10-13). -/
inductive InvalidPhoneNumber : Type
  | NonDigit
  | WrongLength

/-- `<PhoneNumber as Validate>::is_valid` from the context-free doc
example (lib.rs 19-29), translated literally: it returns `WrongLength`
when `self.0.len() == 11` (sic), then `NonDigit` when any character is
not a decimal digit, else `Ok(())`.  Rust's `len()` is the UTF-8 byte
length. -/
def PhoneNumber.is_valid (self : PhoneNumber) (_ctx : Unit) :
    Except InvalidPhoneNumber Unit :=
  if self.str.utf8ByteSize == 11 then
    Except.error InvalidPhoneNumber.WrongLength
  else if self.str.data.any (fun c => !c.isDigit) then
    Except.error InvalidPhoneNumber.NonDigit
  else
    Except.ok ()

/-- The `Validate` impl for the context-free `PhoneNumber` example, with
`Context<'a> = ()` and `Error = InvalidPhoneNumber` (lib.rs 15-30). -/
def phoneNumberValidate : Validate PhoneNumber Unit InvalidPhoneNumber :=
  Validate.mk PhoneNumber.is_valid

namespace WithContext

/-- `PhoneNumber(String)` from the context-dependent doc example
(lib.rs 59). -/
structure PhoneNumber where
  str : String

/-- `InvalidPhoneNumber` from the context-dependent doc example
(lib.rs 61-65). -/
inductive InvalidPhoneNumber : Type
  | NonDigit
  | WrongLength
  | NotInDatabase

/-- The `Database` context from the context-dependent doc example
(lib.rs 53-57): its one capability is `check_phone_exists`. -/
structure Database where
  check_phone_exists : PhoneNumber → Bool

/-- `<PhoneNumber as Validate>::is_valid` from the context-dependent doc
example (lib.rs 71-85), translated literally: `WrongLength` when
`self.0.len() == 11` (sic), then `NonDigit` on any non-digit character,
then `NotInDatabase` when `!db.check_phone_exists(self)`, else
`Ok(())`. -/
def PhoneNumber.is_valid (self : PhoneNumber) (db : Database) :
    Except InvalidPhoneNumber Unit :=
  if self.str.utf8ByteSize == 11 then
    Except.error InvalidPhoneNumber.WrongLength
  else if self.str.data.any (fun c => !c.isDigit) then
    Except.error InvalidPhoneNumber.NonDigit
  else if !(db.check_phone_exists self) then
    Except.error InvalidPhoneNumber.NotInDatabase
  else
    Except.ok ()

/-- The `Validate` impl for the context-dependent `PhoneNumber` example,
with `Context<'a> = Database` and `Error = InvalidPhoneNumber`
(lib.rs 67-86). -/
def phoneNumberDbValidate : Validate PhoneNumber Database InvalidPhoneNumber :=
  Validate.mk PhoneNumber.is_valid

end WithContext

/-- Helper: `validate_with` returns `Ok(w)` exactly when the predicate
succeeded and `w` wraps the examined payload unchanged. -/
theorem validate_with_ok_iff {T Ctx Err : Type} (inst : Validate T Ctx Err)
    (v : T) (c : Ctx) (w : Valid T) :
    inst.validate_with v c = Except.ok w ↔
      inst.is_valid v c = Except.ok () ∧ w = Valid.mk v := by
  unfold Validate.validate_with
  cases hv : inst.is_valid v c with
  | ok u =>
      cases u
      simp [eq_comm]
  | error e =>
      simp

/-- Claim C1: a `Valid` wrapper obtained from `validate_with` (the only
constructor outside the test-mock escape hatch; `validate` goes through
it) holds a payload on which `is_valid` succeeded with the supplied
context at the moment of construction; hence no wrapper exists for an
attempt on which the predicate failed. -/
theorem valid_implies_predicate_held {T Ctx Err : Type}
    (inst : Validate T Ctx Err) (v : T) (c : Ctx) (w : Valid T)
    (h : inst.validate_with v c = Except.ok w) :
    inst.is_valid w.into_inner c = Except.ok () := by
  obtain ⟨hv, hw⟩ := (validate_with_ok_iff inst v c w).mp h
  subst hw
  exact hv

/-- Witness for C1 at the concrete payload `PhoneNumber("0123456789")`,
which the crate's predicate accepts. -/
theorem valid_implies_predicate_held_witness :
    phoneNumberValidate.validate_with (PhoneNumber.mk "0123456789") ()
        = Except.ok (Valid.mk (PhoneNumber.mk "0123456789"))
    ∧ phoneNumberValidate.is_valid
        (Valid.mk (PhoneNumber.mk "0123456789")).into_inner ()
        = Except.ok () :=
  ⟨by rfl,
    valid_implies_predicate_held phoneNumberValidate
      (PhoneNumber.mk "0123456789") ()
      (Valid.mk (PhoneNumber.mk "0123456789")) (by rfl)⟩

/-- Claim C2: if `is_valid(v, c)` succeeds, then `validate_with(v, c)`
returns a wrapper around exactly `v`, and `into_inner` gives back `v`
unchanged. -/
theorem validate_with_sound {T Ctx Err : Type}
    (inst : Validate T Ctx Err) (v : T) (c : Ctx)
    (h : inst.is_valid v c = Except.ok ()) :
    inst.validate_with v c = Except.ok (Valid.mk v)
    ∧ (Valid.mk v).into_inner = v :=
  ⟨(validate_with_ok_iff inst v c (Valid.mk v)).mpr ⟨h, rfl⟩, rfl⟩

/-- Witness for C2 at the concrete payload `PhoneNumber("0123456789")`. -/
theorem validate_with_sound_witness :
    phoneNumberValidate.is_valid (PhoneNumber.mk "0123456789") ()
        = Except.ok ()
    ∧ (phoneNumberValidate.validate_with (PhoneNumber.mk "0123456789") ()
          = Except.ok (Valid.mk (PhoneNumber.mk "0123456789"))
        ∧ (Valid.mk (PhoneNumber.mk "0123456789")).into_inner
          = PhoneNumber.mk "0123456789") :=
  ⟨by rfl,
    validate_with_sound phoneNumberValidate
      (PhoneNumber.mk "0123456789") () (by rfl)⟩

/-- Claim C3: if `is_valid(v, c)` fails with error `e`, then
`validate_with(v, c)` returns exactly `e`, unchanged, and no `Valid`
wrapper is produced for that attempt. -/
theorem validate_with_rejects {T Ctx Err : Type}
    (inst : Validate T Ctx Err) (v : T) (c : Ctx) (e : Err)
    (h : inst.is_valid v c = Except.error e) :
    inst.validate_with v c = Except.error e
    ∧ ∀ w : Valid T, inst.validate_with v c ≠ Except.ok w := by
  have hrun : inst.validate_with v c = Except.error e := by
    unfold Validate.validate_with
    rw [h]
  refine ⟨hrun, fun w hw => ?_⟩
  rw [hrun] at hw
  exact Except.noConfusion hw

/-- Witness for C3 at `PhoneNumber("01234567890")`, which the crate's
predicate rejects with `WrongLength`. -/
theorem validate_with_rejects_witness :
    phoneNumberValidate.is_valid (PhoneNumber.mk "01234567890") ()
        = Except.error InvalidPhoneNumber.WrongLength
    ∧ (phoneNumberValidate.validate_with (PhoneNumber.mk "01234567890") ()
          = Except.error InvalidPhoneNumber.WrongLength
        ∧ ∀ w : Valid PhoneNumber,
            phoneNumberValidate.validate_with (PhoneNumber.mk "01234567890") ()
              ≠ Except.ok w) :=
  ⟨by rfl,
    validate_with_rejects phoneNumberValidate
      (PhoneNumber.mk "01234567890") () InvalidPhoneNumber.WrongLength
      (by rfl)⟩

/-- Claim C4: for a payload type whose context type is `()`, `validate`
returns exactly the same result as `validate_with` applied to the unit
context — the two entry points are behaviorally identical. -/
theorem validate_eq_validate_with_unit {T Err : Type}
    (inst : Validate T Unit Err) (v : T) :
    inst.validate v = inst.validate_with v () :=
  rfl

/-- Claim C5: reading a wrapped value through `Deref` yields the same
value as `into_inner`, and `into_inner` followed by re-validation (when
the predicate still succeeds on the extracted value) round-trips to the
original wrapper. -/
theorem deref_into_inner_roundtrip {T Ctx Err : Type}
    (inst : Validate T Ctx Err) (w : Valid T) (c : Ctx)
    (h : inst.is_valid w.into_inner c = Except.ok ()) :
    Valid.deref w = w.into_inner
    ∧ inst.validate_with w.into_inner c = Except.ok w :=
  ⟨rfl, (validate_with_ok_iff inst w.into_inner c w).mpr ⟨h, rfl⟩⟩

/-- Witness for C5 at the wrapper around `PhoneNumber("0123456789")`. -/
theorem deref_into_inner_roundtrip_witness :
    phoneNumberValidate.is_valid
        (Valid.mk (PhoneNumber.mk "0123456789")).into_inner ()
        = Except.ok ()
    ∧ (Valid.deref (Valid.mk (PhoneNumber.mk "0123456789"))
          = (Valid.mk (PhoneNumber.mk "0123456789")).into_inner
        ∧ phoneNumberValidate.validate_with
            (Valid.mk (PhoneNumber.mk "0123456789")).into_inner ()
          = Except.ok (Valid.mk (PhoneNumber.mk "0123456789"))) :=
  ⟨by rfl,
    deref_into_inner_roundtrip phoneNumberValidate
      (Valid.mk (PhoneNumber.mk "0123456789")) () (by rfl)⟩

/-- Claim C6: the capabilities `Valid<T>` derives (lib.rs 133) delegate
field-wise to the payload: wrappers compare equal, order, and hash
exactly as their unwrapped payloads, clone clones the single field, and
debug formatting applies the field's own formatting inside `Valid(..)`. -/
theorem derived_capabilities_forward {T : Type} [BEq T] [Ord T] [Hashable T]
    (a b : Valid T) (clone_t : T → T) (fmt_t : T → String) :
    ((a == b) = (a.into_inner == b.into_inner))
    ∧ (compare a b = compare a.into_inner b.into_inner)
    ∧ (hash a = hash a.into_inner)
    ∧ (Valid.clone clone_t a = Valid.mk (clone_t a.into_inner))
    ∧ (Valid.fmt_debug fmt_t a = "Valid(" ++ fmt_t a.into_inner ++ ")") :=
  ⟨rfl, rfl, rfl, rfl, rfl⟩

/-- Claim C7 (code evaluation): the predicate of the crate's context-free
phone-number example, as written, rejects the 11-byte input
`"01234567890"` with `WrongLength` (its first check is `len() == 11`),
rejects `"0123456789a"` with `WrongLength` for the same reason, and
accepts both `"0123456789"` and `""` — the opposite of the documented
behaviour on every one of the four inputs. -/
theorem phone_example_code_divergence :
    PhoneNumber.is_valid (PhoneNumber.mk "01234567890") ()
        = Except.error InvalidPhoneNumber.WrongLength
    ∧ PhoneNumber.is_valid (PhoneNumber.mk "0123456789") ()
        = Except.ok ()
    ∧ PhoneNumber.is_valid (PhoneNumber.mk "0123456789a") ()
        = Except.error InvalidPhoneNumber.WrongLength
    ∧ PhoneNumber.is_valid (PhoneNumber.mk "") ()
        = Except.ok () :=
  ⟨rfl, rfl, rfl, rfl⟩

/-- Claim C8 (code evaluation): the context-dependent example's predicate
rejects `"01234567890"` with `WrongLength` before ever consulting the
database, whether the existence check reports `false` or `true`. -/
theorem phone_ctx_example_code_divergence :
    WithContext.PhoneNumber.is_valid (WithContext.PhoneNumber.mk "01234567890")
        (WithContext.Database.mk (fun _ => false))
        = Except.error WithContext.InvalidPhoneNumber.WrongLength
    ∧ WithContext.PhoneNumber.is_valid (WithContext.PhoneNumber.mk "01234567890")
        (WithContext.Database.mk (fun _ => true))
        = Except.error WithContext.InvalidPhoneNumber.WrongLength :=
  ⟨rfl, rfl⟩

/-- Claim C9: with the test-mock feature enabled,
`danger_new_unvalidated` wraps any payload without invoking any
predicate — including `PhoneNumber("01234567890")`, which `is_valid`
rejects — and with the feature disabled the constructor is not part of
the API at all. -/
theorem escape_hatch_bypasses_predicate :
    (∀ (T : Type) (t : T),
        Valid.danger_new_unvalidated t = Valid.mk t
        ∧ Valid.danger_new_unvalidated_gated true t
            = some (Valid.mk t)
        ∧ Valid.danger_new_unvalidated_gated false t
            = (none : Option (Valid T)))
    ∧ PhoneNumber.is_valid (PhoneNumber.mk "01234567890") ()
        = Except.error InvalidPhoneNumber.WrongLength
    ∧ (Valid.danger_new_unvalidated (PhoneNumber.mk "01234567890")).into_inner
        = PhoneNumber.mk "01234567890" :=
  ⟨fun _ _ => ⟨rfl, rfl, rfl⟩, rfl, rfl⟩

/-- Claim C10: `validate_with` is deterministic — two runs on equal
payloads and equal contexts return equal results, and in particular
either both succeed with the same wrapper or both fail with the same
error. -/
theorem validate_with_deterministic {T Ctx Err : Type}
    (inst : Validate T Ctx Err) (v v' : T) (c c' : Ctx)
    (hv : v = v') (hc : c = c') :
    inst.validate_with v c = inst.validate_with v' c'
    ∧ ((∃ w, inst.validate_with v c = Except.ok w
          ∧ inst.validate_with v' c' = Except.ok w)
       ∨ (∃ e, inst.validate_with v c = Except.error e
          ∧ inst.validate_with v' c' = Except.error e)) := by
  subst hv
  subst hc
  refine ⟨rfl, ?_⟩
  cases h : inst.validate_with v c with
  | ok w => exact Or.inl ⟨w, rfl, rfl⟩
  | error e => exact Or.inr ⟨e, rfl, rfl⟩

/-- Witness for C10 at two equal copies of `PhoneNumber("0123456789")`
with the unit context. -/
theorem validate_with_deterministic_witness :
    PhoneNumber.mk "0123456789" = PhoneNumber.mk "0123456789"
    ∧ (phoneNumberValidate.validate_with (PhoneNumber.mk "0123456789") ()
          = phoneNumberValidate.validate_with (PhoneNumber.mk "0123456789") ()
        ∧ ((∃ w, phoneNumberValidate.validate_with (PhoneNumber.mk "0123456789") ()
              = Except.ok w
              ∧ phoneNumberValidate.validate_with (PhoneNumber.mk "0123456789") ()
              = Except.ok w)
           ∨ (∃ e, phoneNumberValidate.validate_with (PhoneNumber.mk "0123456789") ()
              = Except.error e
              ∧ phoneNumberValidate.validate_with (PhoneNumber.mk "0123456789") ()
              = Except.error e))) :=
  ⟨rfl,
    validate_with_deterministic phoneNumberValidate
      (PhoneNumber.mk "0123456789") (PhoneNumber.mk "0123456789") () ()
      rfl rfl⟩
